import Mathlib

/-!
Verification of the translation-session core of the desktop-translator
repository.

The repository contains two generations of the core state machine
`TranslationContext` and of the orchestrating `TranslationManager`:

* generation 1 (file commented `src/core/translation/TranslationContext.js`,
  shipped alongside the manager that calls `handleExternalInput` /
  `handleInputUpdate`): initial `currentSource` is the sentinel `"auto"`,
  and timeout reset restores `"auto"`;
* generation 2 (the file at `src/core/translation/TranslationContext.js`,
  shipped alongside the manager that calls `setManualPair` /
  `updateFromApiResult`): initial `currentSource` is the primary language,
  and timeout reset restores the primary language.

Both are embedded below, namespaces `V1` and `V2`.  JavaScript `null` /
`undefined` / `""` language codes are all falsy in every use site of the
source, so they are uniformly modelled by the empty string `""`.  Times
(`Date.now()`) are explicit `Nat` parameters.  `Map` objects are modelled
as insertion-ordered association lists.
-/

/-- JS-object / `Map` style insertion: overwrite in place if the key is
present, otherwise append (insertion order preserved). -/
def assocSet {α : Type} (m : List (String × α)) (k : String) (v : α) :
    List (String × α) :=
  if m.any (fun p => p.1 = k) then
    m.map (fun p => if p.1 = k then (k, v) else p)
  else
    m ++ [(k, v)]

/-- `Map.get` / JS object read. -/
def assocGet {α : Type} (m : List (String × α)) (k : String) : Option α :=
  (m.find? (fun p => p.1 = k)).map (fun p => p.2)

namespace V1

/-- Generation-1 `TranslationContext` session state (the version whose
constructor sets `currentSource = 'auto'`). -/
structure TranslationContext where
  primary : String
  defaultForeign : String
  timeoutMs : Nat
  currentSource : String
  currentTarget : String
  lastForeign : String
  lastActivity : Nat
deriving DecidableEq, Repr

/-- `new TranslationContext(primaryLang, defaultForeignLang, timeoutMinutes)`
at time `now`; `primaryLang || 'ru'` and `defaultForeignLang || 'en'`. -/
def mk (primaryLang defaultForeignLang : String) (timeoutMinutes : Nat)
    (now : Nat) : TranslationContext :=
  let primary := if primaryLang = "" then "ru" else primaryLang
  let defaultForeign := if defaultForeignLang = "" then "en"
    else defaultForeignLang
  { primary := primary
    defaultForeign := defaultForeign
    timeoutMs := timeoutMinutes * 60 * 1000
    currentSource := "auto"
    currentTarget := defaultForeign
    lastForeign := defaultForeign
    lastActivity := now }

/-- `isExpired()`: `(Date.now() - this.lastActivity) > this.timeoutMs`. -/
def isExpired (now : Nat) (c : TranslationContext) : Prop :=
  now - c.lastActivity > c.timeoutMs

instance (now : Nat) (c : TranslationContext) : Decidable (isExpired now c) :=
  inferInstanceAs (Decidable (_ > _))

/-- `touch()`. -/
def touch (now : Nat) (c : TranslationContext) : TranslationContext :=
  { c with lastActivity := now }

/-- `checkTimeout()`: on expiry reset `lastForeign`, `currentSource` (to
`'auto'`) and `currentTarget`. -/
def checkTimeout (now : Nat) (c : TranslationContext) : TranslationContext :=
  if isExpired now c then
    { c with lastForeign := c.defaultForeign
             currentSource := "auto"
             currentTarget := c.defaultForeign }
  else c

/-- `updateConfig(primary, secondary, timeout)`; a `0` timeout is falsy in
JS, an empty string stands for a missing language argument. -/
def updateConfig (primaryArg secondaryArg : String) (timeoutArg : Nat)
    (now : Nat) (c : TranslationContext) : TranslationContext :=
  let c1 := if primaryArg = "" then c else { c with primary := primaryArg }
  let c2 :=
    if secondaryArg = "" then c1
    else
      let oldDefault := c1.defaultForeign
      let cA := { c1 with defaultForeign := secondaryArg }
      if cA.lastForeign = oldDefault ∨ isExpired now cA then
        { cA with lastForeign := secondaryArg }
      else cA
  if timeoutArg = 0 then c2
  else { c2 with timeoutMs := timeoutArg * 60 * 1000 }

/-- `handleExternalInput(detectedLang)` at time `now`. -/
def handleExternalInput (detectedLang : String) (now : Nat)
    (c : TranslationContext) : TranslationContext :=
  let c := touch now (checkTimeout now c)
  if detectedLang = "" then c
  else if detectedLang = c.primary then
    { c with currentSource := c.primary, currentTarget := c.lastForeign }
  else
    { c with currentSource := detectedLang
             currentTarget := c.primary
             lastForeign := detectedLang }

/-- `handleInputUpdate(detectedLang)` at time `now`. -/
def handleInputUpdate (detectedLang : String) (now : Nat)
    (c : TranslationContext) : TranslationContext :=
  let c := touch now (checkTimeout now c)
  if detectedLang = "" then c
  else if detectedLang = c.currentTarget then
    { c with currentSource := detectedLang
             currentTarget :=
               if detectedLang = c.primary then c.lastForeign else c.primary }
  else if detectedLang = c.lastForeign ∧ c.currentSource ≠ c.lastForeign then
    { c with currentSource := c.lastForeign, currentTarget := c.primary }
  else c

/-- `getCurrentPair()`. -/
def getCurrentPair (c : TranslationContext) : String × String :=
  (c.currentSource, c.currentTarget)

end V1

namespace V2

/-- Generation-2 `TranslationContext` (the version whose constructor sets
`currentSource` to the primary language and which exposes `setManualPair`
and `updateFromApiResult`). -/
structure TranslationContext where
  primary : String
  defaultForeign : String
  timeoutMs : Nat
  currentSource : String
  currentTarget : String
  lastForeign : String
  lastActivity : Nat
deriving DecidableEq, Repr

/-- `new TranslationContext(primaryLang, defaultForeignLang, timeoutMinutes)`
at time `now`. -/
def mk (primaryLang defaultForeignLang : String) (timeoutMinutes : Nat)
    (now : Nat) : TranslationContext :=
  let primary := if primaryLang = "" then "ru" else primaryLang
  let defaultForeign := if defaultForeignLang = "" then "en"
    else defaultForeignLang
  { primary := primary
    defaultForeign := defaultForeign
    timeoutMs := timeoutMinutes * 60 * 1000
    currentSource := primary
    currentTarget := defaultForeign
    lastForeign := defaultForeign
    lastActivity := now }

/-- `isExpired()`. -/
def isExpired (now : Nat) (c : TranslationContext) : Prop :=
  now - c.lastActivity > c.timeoutMs

instance (now : Nat) (c : TranslationContext) : Decidable (isExpired now c) :=
  inferInstanceAs (Decidable (_ > _))

/-- `touch()`. -/
def touch (now : Nat) (c : TranslationContext) : TranslationContext :=
  { c with lastActivity := now }

/-- `checkTimeout()`: on expiry reset `currentSource` to the primary
language (not `'auto'`), `currentTarget` and `lastForeign` to the default
foreign language. -/
def checkTimeout (now : Nat) (c : TranslationContext) : TranslationContext :=
  if isExpired now c then
    { c with currentSource := c.primary
             currentTarget := c.defaultForeign
             lastForeign := c.defaultForeign }
  else c

/-- `updateConfig(primary, secondary, timeout)`: both `lastForeign` and
`currentTarget` cascade, each under its own condition. -/
def updateConfig (primaryArg secondaryArg : String) (timeoutArg : Nat)
    (now : Nat) (c : TranslationContext) : TranslationContext :=
  let c1 := if primaryArg = "" then c else { c with primary := primaryArg }
  let c2 :=
    if secondaryArg = "" then c1
    else
      let oldDefault := c1.defaultForeign
      let cA := { c1 with defaultForeign := secondaryArg }
      let cB :=
        if cA.lastForeign = oldDefault ∨ isExpired now cA then
          { cA with lastForeign := secondaryArg }
        else cA
      if cB.currentTarget = oldDefault ∨ isExpired now cB then
        { cB with currentTarget := secondaryArg }
      else cB
  if timeoutArg = 0 then c2
  else { c2 with timeoutMs := timeoutArg * 60 * 1000 }

/-- `updateFromApiResult(detectedLang)` at time `now`; returns the
"inverted" flag together with the updated context. -/
def updateFromApiResult (detectedLang : String) (now : Nat)
    (c : TranslationContext) : Bool × TranslationContext :=
  let c := touch now (checkTimeout now c)
  if detectedLang = "" then (false, c)
  else if detectedLang = c.currentTarget then
    (true,
      { c with currentSource := c.currentTarget
               currentTarget :=
                 if c.currentTarget = c.primary then c.lastForeign
                 else c.primary })
  else
    (false,
      let cA := { c with currentSource := detectedLang }
      if detectedLang ≠ c.primary then { cA with lastForeign := detectedLang }
      else cA)

/-- `setManualPair(source, target)` at time `now`. -/
def setManualPair (source target : String) (now : Nat)
    (c : TranslationContext) : TranslationContext :=
  let c := touch now c
  let c1 :=
    if source ≠ "" ∧ source ≠ "auto" then
      let cA := { c with currentSource := source }
      if source ≠ c.primary then { cA with lastForeign := source } else cA
    else c
  if target ≠ "" ∧ target ≠ "auto" then
    let cB := { c1 with currentTarget := target }
    if target ≠ c1.primary then { cB with lastForeign := target } else cB
  else c1

/-- `getCurrentPair()`. -/
def getCurrentPair (c : TranslationContext) : String × String :=
  (c.currentSource, c.currentTarget)

end V2

namespace LanguageUtils

/-- The ISO 639-3 → ISO 639-1 `isoMap` table of `LanguageUtils`. -/
def isoMap : List (String × String) :=
  [("eng", "en"), ("rus", "ru"), ("spa", "es"), ("fra", "fr"),
   ("deu", "de"), ("zho", "zh"), ("cmn", "zh"), ("jpn", "ja"),
   ("kor", "ko"), ("ita", "it"), ("tur", "tr"), ("ukr", "uk"),
   ("arb", "ar"), ("por", "pt"), ("nld", "nl"), ("pol", "pl"),
   ("bul", "bg"), ("ces", "cs"), ("dan", "da"), ("fin", "fi"),
   ("ell", "el"), ("hun", "hu"), ("ind", "id"), ("lav", "lv"),
   ("lit", "lt"), ("nno", "no"), ("nob", "no"), ("ron", "ro"),
   ("slk", "sk"), ("slv", "sl"), ("swe", "sv"), ("tha", "th"),
   ("vie", "vi")]

/-- `reverseIsoMap`: `Object.entries(isoMap).reduce(acc[value] = key)` —
later entries overwrite earlier ones, key order is first insertion. -/
def reverseIsoMap : List (String × String) :=
  isoMap.foldl (fun acc kv => assocSet acc kv.2 kv.1) []

/-- `[...new Set(xs)]`: deduplication keeping first occurrences. -/
def dedupFirst (xs : List String) : List String :=
  xs.foldl (fun acc x => if acc.contains x then acc else acc ++ [x]) []

/-- `baseWhitelist` of `detectLanguage`. -/
def baseWhitelist : List String :=
  ["eng", "rus", "spa", "fra", "deu", "zho", "jpn"]

/-- The whitelist handed to `franc.all`: priority languages mapped through
`reverseIsoMap` (dropping unmapped ones), then the base list, deduplicated. -/
def whitelistOf (priorityLanguages : List String) : List String :=
  dedupFirst
    ((priorityLanguages.filterMap (fun l => List.lookup l reverseIsoMap))
      ++ baseWhitelist)

/-- The `0.75` confidence threshold of `detectLanguage`, as the rational
`3/4`. -/
def confidenceThreshold : ℚ := mkRat 3 4

/-- `detectLanguage(text, priorityLanguages)`.  The franc library is not
part of the repository; `francAll` abstracts `franc.all` restricted to the
computed whitelist, returning `[code, score]` pairs best-first (an absent /
empty result array is `[]`).  Scores are modelled as rationals. -/
def detectLanguage (francAll : String → List String → List (String × ℚ))
    (text : String) (priorityLanguages : List String) : Option String :=
  if text = "" ∨ text.length < 3 then none
  else
    let results := francAll text (whitelistOf priorityLanguages)
    match results with
    | [] => none
    | bestGuess :: _ =>
      let code3 := bestGuess.1
      let score := bestGuess.2
      if text.length < 10 ∧ score < confidenceThreshold then none
      else List.lookup code3 isoMap

end LanguageUtils

/-- Structured provider error (`TranslationError` of
`ITranslationProvider.js`): a taxonomy `type` and a `message`. -/
structure TranslationError where
  type : String
  message : String
deriving DecidableEq, Repr

/-- Provider `translate` result (`TranslationResult`); absent string
fields are `""`, an absent error is `none`. -/
structure ProviderResult where
  text : String := ""
  sourceLang : String := ""
  targetLang : String := ""
  detectedLanguage : String := ""
  error : Option TranslationError := none
deriving Repr

/-- A translation provider as the manager sees it: its `name` and its
(deterministic) `translate(text, sourceLang, targetLang)` behaviour. -/
structure Provider where
  name : String
  tr : String → String → String → ProviderResult

/-- A manager response / cache entry.  JavaScript objects with absent
fields are modelled with defaults: `""`, `0`, `none`, `false`. -/
structure Response where
  translatedText : String := ""
  sourceLang : String := ""
  targetLang : String := ""
  detectedLanguage : String := ""
  provider : String := ""
  timestamp : Nat := 0
  error : Option String := none
  errorType : Option String := none
  fromCache : Bool := false
deriving DecidableEq, Repr

/-- A history entry of `addToHistory`. -/
structure HistoryEntry where
  text : String
  sourceLang : String
  targetLang : String
  result : String
  provider : String
  timestamp : Nat
deriving DecidableEq, Repr

/-- The `translation` section of the settings store; falsy sentinels:
`""` for missing strings, `0` for a missing timeout, `none` for a missing
`smartSwitch` flag. -/
structure TranslationSettings where
  smartSwitch : Option Bool := none
  primaryLanguage : String := ""
  secondLanguage : String := ""
  sessionTimeout : Nat := 0
deriving Repr

/-- `maxCacheSize`. -/
def maxCacheSize : Nat := 100

/-- `cacheTTL` (24 hours in milliseconds). -/
def cacheTTL : Nat := 24 * 60 * 60 * 1000

/-- `maxHistorySize`. -/
def maxHistorySize : Nat := 50

/-- `getCacheKey(text, sourceLang, targetLang)` given the active provider
name. -/
def getCacheKey (providerName text sourceLang targetLang : String) : String :=
  providerName ++ ":" ++ text ++ ":" ++ sourceLang ++ ":" ++ targetLang

/-- `isCacheValid(cacheEntry)`: a falsy (`0`) timestamp is invalid,
otherwise the age must be below the TTL. -/
def isCacheValid (entry : Response) (now : Nat) : Prop :=
  entry.timestamp ≠ 0 ∧ now - entry.timestamp < cacheTTL

instance (entry : Response) (now : Nat) : Decidable (isCacheValid entry now) :=
  inferInstanceAs (Decidable (_ ∧ _))

/-- `addToCache(key, result)`: evict the insertion-oldest entry when at
capacity, then store the result with a fresh timestamp. -/
def addToCache (cache : List (String × Response)) (key : String)
    (result : Response) (now : Nat) : List (String × Response) :=
  let cache :=
    if cache.length ≥ maxCacheSize then
      match cache.head? with
      | some first => cache.eraseP (fun p => p.1 = first.1)
      | none => cache
    else cache
  assocSet cache key { result with timestamp := now }

/-- `addToHistory(translation)`: prepend, then truncate to capacity. -/
def addToHistory (history : List HistoryEntry) (e : HistoryEntry) :
    List HistoryEntry :=
  let h := e :: history
  if h.length > maxHistorySize then h.take maxHistorySize else h

/-- JS `String.prototype.trim()`: strip leading and trailing whitespace
(modelled directly over the character list). -/
def jsTrim (s : String) : String :=
  String.mk
    (((s.data.dropWhile Char.isWhitespace).reverse.dropWhile
        Char.isWhitespace).reverse)

namespace TranslationManagerV1

/-- Mutable state of the generation-1 `TranslationManager` (the one whose
`translate` drives the context through `handleExternalInput` /
`handleInputUpdate`). -/
structure State where
  activeProvider : Option Provider
  cache : List (String × Response)
  history : List HistoryEntry
  settingsStore : Option TranslationSettings
  context : Option V1.TranslationContext

/-- Result of one `translate` call: the returned response, the state after
the call, and how many provider `translate` calls were issued. -/
structure Out where
  response : Response
  state : State
  providerCalls : Nat

/-- `initializeContext()`: read the settings (with `|| 'ru'` / `|| 'en'` /
`|| 60` defaults), then create the context or push the values through
`updateConfig`. -/
def initializeContext (st : State) (now : Nat) : State :=
  match st.settingsStore with
  | none => st
  | some s =>
    let primary := if s.primaryLanguage = "" then "ru" else s.primaryLanguage
    let secondary := if s.secondLanguage = "" then "en" else s.secondLanguage
    let timeout := if s.sessionTimeout = 0 then 60 else s.sessionTimeout
    match st.context with
    | none =>
      { st with context := some (V1.mk primary secondary timeout now) }
    | some c =>
      { st with
        context := some (V1.updateConfig primary secondary timeout now c) }

/-- The `initialize('mock', 'mock-key')` fallback of `translate`:
`mockProv` stands for the factory-built mock provider (the factory itself
is outside the translation core). -/
def initializeMock (mockProv : Provider) (st : State) (now : Nat) : State :=
  initializeContext { st with activeProvider := some mockProv } now

/-- Steps 2–3 of the generation-1 `translate` together with the
`finalTarget` fallback: settings read, smart-context resolution of
`finalSource` / `finalTarget` (mutating the context), returning the
updated state and the resolved pair. -/
def resolve (francAll : String → List String → List (String × ℚ))
    (st : State) (text sourceLang targetLang : String) (isExternal : Bool)
    (now : Nat) : State × String × String :=
  let settings := st.settingsStore.getD {}
  let isSmart := settings.smartSwitch ≠ some false
  let (st, finalSource, finalTarget) :=
    match st.context with
    | some ctx =>
      if isSmart ∧ sourceLang = "auto" then
        let detected :=
          (LanguageUtils.detectLanguage francAll text
            [ctx.primary, ctx.lastForeign]).getD ""
        let ctx :=
          if isExternal then V1.handleExternalInput detected now ctx
          else V1.handleInputUpdate detected now ctx
        let pair := V1.getCurrentPair ctx
        let fs :=
          if detected ≠ "" then
            if pair.1 = "auto" then detected else pair.1
          else "auto"
        ({ st with context := some ctx }, fs, pair.2)
      else (st, sourceLang, targetLang)
    | none => (st, sourceLang, targetLang)
  let finalTarget :=
    if finalTarget = "" then settings.primaryLanguage else finalTarget
  (st, finalSource, finalTarget)

/-- Generation-1 `translate(text, sourceLang, targetLang, options)` at
time `now`; `options.isExternal` is `isExternal`, `francAll` abstracts the
franc library, `mockProv` the factory-built mock fallback provider. -/
def translate (mockProv : Provider)
    (francAll : String → List String → List (String × ℚ)) (st : State)
    (text sourceLang targetLang : String) (isExternal : Bool) (now : Nat) :
    Out :=
  if jsTrim text = "" then
    { response := { translatedText := "", error := some "Empty text" }
      state := st, providerCalls := 0 }
  else
    let provSt : Provider × State :=
      match st.activeProvider with
      | some p => (p, st)
      | none => (mockProv, initializeMock mockProv st now)
    let prov := provSt.1
    let st := provSt.2
    let resolved := resolve francAll st text sourceLang targetLang
      isExternal now
    let st := resolved.1
    let finalSource := resolved.2.1
    let finalTarget := resolved.2.2
    let cacheKey := getCacheKey prov.name text finalSource finalTarget
    let miss : Out :=
      let result := prov.tr text finalSource finalTarget
      match result.error with
      | some e =>
        { response :=
            { translatedText := ""
              error := some e.message
              provider := prov.name
              errorType := some e.type }
          state := st, providerCalls := 1 }
      | none =>
        let response : Response :=
          { translatedText := result.text
            sourceLang := result.sourceLang
            targetLang := result.targetLang
            detectedLanguage :=
              if result.detectedLanguage ≠ "" then result.detectedLanguage
              else finalSource
            provider := prov.name
            timestamp := now }
        { response := response
          state :=
            { st with
              cache := addToCache st.cache cacheKey response now
              history := addToHistory st.history
                { text := text
                  sourceLang := response.sourceLang
                  targetLang := response.targetLang
                  result := response.translatedText
                  provider := prov.name
                  timestamp := now } }
          providerCalls := 1 }
    match assocGet st.cache cacheKey with
    | some cached =>
      if isCacheValid cached now then
        { response := { cached with fromCache := true }
          state := st, providerCalls := 0 }
      else miss
    | none => miss

end TranslationManagerV1

namespace TranslationManagerV2

/-- Mutable state of the generation-2 `TranslationManager` (the one whose
`translate` drives the context through `setManualPair` /
`updateFromApiResult`). -/
structure State where
  activeProvider : Option Provider
  cache : List (String × Response)
  history : List HistoryEntry
  settingsStore : Option TranslationSettings
  context : Option V2.TranslationContext

/-- Result of one generation-2 `translate` call. -/
structure Out where
  response : Response
  state : State
  providerCalls : Nat

/-- `initializeContext()` of the generation-2 manager. -/
def initializeContext (st : State) (now : Nat) : State :=
  match st.settingsStore with
  | none => st
  | some s =>
    let primary := if s.primaryLanguage = "" then "ru" else s.primaryLanguage
    let secondary := if s.secondLanguage = "" then "en" else s.secondLanguage
    let timeout := if s.sessionTimeout = 0 then 60 else s.sessionTimeout
    match st.context with
    | none =>
      { st with context := some (V2.mk primary secondary timeout now) }
    | some c =>
      { st with
        context := some (V2.updateConfig primary secondary timeout now c) }

/-- The `initialize('mock', 'mock-key')` fallback of the generation-2
`translate`. -/
def initializeMock (mockProv : Provider) (st : State) (now : Nat) : State :=
  initializeContext { st with activeProvider := some mockProv } now

/-- `result.detectedLanguage || result.sourceLang || fallback`. -/
def detectedOf (result : ProviderResult) (fallback : String) : String :=
  if result.detectedLanguage ≠ "" then result.detectedLanguage
  else if result.sourceLang ≠ "" then result.sourceLang
  else fallback

/-- Generation-2 `translate(text, sourceLang, targetLang)` at time `now`.
The inversion path may issue a second provider call; `providerCalls`
counts the issued calls. -/
def translate (mockProv : Provider) (st : State)
    (text sourceLang targetLang : String) (now : Nat) : Out :=
  if jsTrim text = "" then
    { response := { translatedText := "", error := some "Empty text" }
      state := st, providerCalls := 0 }
  else
    let provSt : Provider × State :=
      match st.activeProvider with
      | some p => (p, st)
      | none => (mockProv, initializeMock mockProv st now)
    let prov := provSt.1
    let st := provSt.2
    let settings := st.settingsStore.getD {}
    let st :=
      match st.context with
      | some c =>
        let c := V2.checkTimeout now c
        let c :=
          if sourceLang ≠ "" ∧ sourceLang ≠ "auto" ∧ targetLang ≠ "" then
            V2.setManualPair sourceLang targetLang now c
          else c
        { st with context := some c }
      | none => st
    let finalTarget :=
      if targetLang ≠ "" then targetLang
      else
        match st.context with
        | some c => c.currentTarget
        | none =>
          if settings.primaryLanguage = "" then "ru"
          else settings.primaryLanguage
    let requestSource :=
      if sourceLang = "" ∨ sourceLang = "auto" then "auto" else sourceLang
    let assumedSource :=
      if requestSource = "auto" then
        match st.context with
        | some c => c.currentSource
        | none => "en"
      else requestSource
    let fail := fun (e : TranslationError) (st : State) (calls : Nat) =>
      ({ response :=
           { translatedText := ""
             error := some e.message
             provider := prov.name
             errorType := some e.type }
         state := st, providerCalls := calls } : Out)
    let finish := fun (result : ProviderResult) (detectedLang ftarget : String)
        (st : State) (calls : Nat) =>
      let response : Response :=
        { translatedText := result.text
          sourceLang := detectedLang
          targetLang := ftarget
          detectedLanguage := detectedLang
          provider := prov.name
          timestamp := now }
      let key := getCacheKey prov.name text detectedLang ftarget
      ({ response := response
         state :=
           { st with
             cache := addToCache st.cache key response now
             history := addToHistory st.history
               { text := text
                 sourceLang := response.sourceLang
                 targetLang := response.targetLang
                 result := response.translatedText
                 provider := prov.name
                 timestamp := now } }
         providerCalls := calls } : Out)
    let cacheKey := getCacheKey prov.name text assumedSource finalTarget
    let miss : Out :=
      let result := prov.tr text requestSource finalTarget
      match result.error with
      | some e => fail e st 1
      | none =>
        let detectedLang := detectedOf result assumedSource
        match st.context with
        | some c =>
          if requestSource = "auto" then
            let inv := V2.updateFromApiResult detectedLang now c
            let st := { st with context := some inv.2 }
            if inv.1 then
              let finalTarget2 := inv.2.currentTarget
              let cacheKey2 := getCacheKey prov.name text detectedLang
                finalTarget2
              match assocGet st.cache cacheKey2 with
              | some cached2 =>
                if isCacheValid cached2 now then
                  { response := { cached2 with fromCache := true }
                    state := st, providerCalls := 1 }
                else
                  let result2 := prov.tr text "auto" finalTarget2
                  match result2.error with
                  | some e => fail e st 2
                  | none =>
                    finish result2 (detectedOf result2 detectedLang)
                      finalTarget2 st 2
              | none =>
                let result2 := prov.tr text "auto" finalTarget2
                match result2.error with
                | some e => fail e st 2
                | none =>
                  finish result2 (detectedOf result2 detectedLang)
                    finalTarget2 st 2
            else finish result detectedLang finalTarget st 1
          else finish result detectedLang finalTarget st 1
        | none => finish result detectedLang finalTarget st 1
    match assocGet st.cache cacheKey with
    | some cached =>
      if isCacheValid cached now then
        { response := { cached with fromCache := true }
          state := st, providerCalls := 0 }
      else miss
    | none => miss

end TranslationManagerV2


/-- A sample cloud provider that always succeeds (used to exercise the
cache-hit path). -/
def googleProv : Provider :=
  { name := "google"
    tr := fun _ _ _ => { text := "T", sourceLang := "en", targetLang := "ru" } }

/-- A sample mock fallback provider. -/
def mockProvSample : Provider :=
  { name := "mock", tr := fun t _ _ => { text := t } }

/-- A detector stub that never detects anything. -/
def francNone : String → List String → List (String × ℚ) := fun _ _ => []

/-- A sample cached response under the `google` provider. -/
def cachedEntrySample : Response :=
  { translatedText := "privet", sourceLang := "en", targetLang := "ru"
    detectedLanguage := "en", provider := "google", timestamp := 5 }

/-- A generation-1 manager state holding `cachedEntrySample` under the key
`google:hello:auto:ru`. -/
def hitStateV1 : TranslationManagerV1.State :=
  { activeProvider := some googleProv
    cache := [(getCacheKey "google" "hello" "auto" "ru", cachedEntrySample)]
    history := []
    settingsStore := none
    context := none }

/-- A sample provider whose `translate` always reports a network error. -/
def errProv : Provider :=
  { name := "yandex"
    tr := fun _ _ _ =>
      { error := some { type := "NETWORK_ERROR", message := "boom" } } }

/-- A generation-2 manager state with a fresh `ru`/`en` context and the
failing provider. -/
def errStateV2 : TranslationManagerV2.State :=
  { activeProvider := some errProv
    cache := []
    history := []
    settingsStore := none
    context := some (V2.mk "ru" "en" 60 0) }

/-- A generation-1 manager state with the failing provider (no context,
no settings store). -/
def errStateV1 : TranslationManagerV1.State :=
  { activeProvider := some errProv
    cache := []
    history := []
    settingsStore := none
    context := none }

/-- A provider that succeeds when asked to translate into `"en"`
(reporting detected language `"en"`) and fails otherwise — used to drive
the inversion path into its second, failing provider call. -/
def flipErrProv : Provider :=
  { name := "yandex"
    tr := fun _ _ tgt =>
      if tgt = "en" then
        { text := "T", sourceLang := "en", detectedLanguage := "en" }
      else
        { error := some { type := "NETWORK_ERROR", message := "boom2" } } }

/-- A generation-2 manager state with a fresh `ru`/`en` context and
`flipErrProv`. -/
def flipStateV2 : TranslationManagerV2.State :=
  { activeProvider := some flipErrProv
    cache := []
    history := []
    settingsStore := none
    context := some (V2.mk "ru" "en" 60 0) }

/-- Generation-1 context states reachable from a freshly constructed
context through `handleExternalInput`, `handleInputUpdate` and
`checkTimeout`, with arbitrary detected strings and call times. -/
inductive V1Reach : V1.TranslationContext → Prop
  | init (p f : String) (t now : Nat) : V1Reach (V1.mk p f t now)
  | ext (c : V1.TranslationContext) (d : String) (now : Nat) :
      V1Reach c → V1Reach (V1.handleExternalInput d now c)
  | upd (c : V1.TranslationContext) (d : String) (now : Nat) :
      V1Reach c → V1Reach (V1.handleInputUpdate d now c)
  | timeout (c : V1.TranslationContext) (now : Nat) :
      V1Reach c → V1Reach (V1.checkTimeout now c)

/-- Generation-2 context states reachable from a freshly constructed
context through `updateFromApiResult` and `checkTimeout`, with arbitrary
detected strings and call times. -/
inductive V2Reach : V2.TranslationContext → Prop
  | init (p f : String) (t now : Nat) : V2Reach (V2.mk p f t now)
  | api (c : V2.TranslationContext) (d : String) (now : Nat) :
      V2Reach c → V2Reach (V2.updateFromApiResult d now c).2
  | timeout (c : V2.TranslationContext) (now : Nat) :
      V2Reach c → V2Reach (V2.checkTimeout now c)

/-- Claim C1: for every non-empty detected language `d`,
`handleExternalInput(d)` on a non-expired context resolves the pair: if
`d` equals the primary language, `currentSource` becomes the primary
language and `currentTarget` becomes `lastForeign` with `lastForeign`
unchanged; otherwise `currentSource` becomes `d`, `currentTarget` becomes
the primary language, and `lastForeign` is updated to `d`. -/
theorem claim_C1 (c : V1.TranslationContext) (d : String) (now : Nat)
    (hd : d ≠ "") (hexp : ¬ V1.isExpired now c) :
    (d = c.primary →
      (V1.handleExternalInput d now c).currentSource = c.primary ∧
      (V1.handleExternalInput d now c).currentTarget = c.lastForeign ∧
      (V1.handleExternalInput d now c).lastForeign = c.lastForeign) ∧
    (d ≠ c.primary →
      (V1.handleExternalInput d now c).currentSource = d ∧
      (V1.handleExternalInput d now c).currentTarget = c.primary ∧
      (V1.handleExternalInput d now c).lastForeign = d) := by
  unfold V1.handleExternalInput V1.checkTimeout V1.touch
  simp only [hexp, if_false, hd, ite_false]
  constructor
  · intro h
    simp [h]
  · intro h
    simp [h]

/-- Witness for C1: with primary `"ru"`, default foreign `"en"`, the call
`handleExternalInput("en")` on a fresh context makes `lastForeign`
`"en"`. -/
theorem claim_C1_witness :
    (V1.handleExternalInput "en" 1 (V1.mk "ru" "en" 60 0)).currentSource
        = "en" ∧
    (V1.handleExternalInput "en" 1 (V1.mk "ru" "en" 60 0)).currentTarget
        = (V1.mk "ru" "en" 60 0).primary ∧
    (V1.handleExternalInput "en" 1 (V1.mk "ru" "en" 60 0)).lastForeign
        = "en" :=
  (claim_C1 (V1.mk "ru" "en" 60 0) "en" 1 (by decide) (by decide)).2
    (by decide)

/-- Claim C2: for every non-empty detected language `d`,
`handleInputUpdate(d)` on a non-expired context applies exactly the first
matching rule of two: (1) if `d` equals `currentTarget`, `currentSource`
becomes `d` and `currentTarget` becomes `lastForeign` when `d` equals the
primary language, else the primary language; (2) else if `d` equals
`lastForeign` and `currentSource` differs from `lastForeign`,
`currentSource` becomes `lastForeign` and `currentTarget` the primary
language; any other `d` leaves both unchanged. -/
theorem claim_C2 (c : V1.TranslationContext) (d : String) (now : Nat)
    (hd : d ≠ "") (hexp : ¬ V1.isExpired now c) :
    (d = c.currentTarget →
      (V1.handleInputUpdate d now c).currentSource = d ∧
      (V1.handleInputUpdate d now c).currentTarget =
        (if d = c.primary then c.lastForeign else c.primary)) ∧
    (d ≠ c.currentTarget → d = c.lastForeign →
        c.currentSource ≠ c.lastForeign →
      (V1.handleInputUpdate d now c).currentSource = c.lastForeign ∧
      (V1.handleInputUpdate d now c).currentTarget = c.primary) ∧
    (d ≠ c.currentTarget →
        ¬ (d = c.lastForeign ∧ c.currentSource ≠ c.lastForeign) →
      (V1.handleInputUpdate d now c).currentSource = c.currentSource ∧
      (V1.handleInputUpdate d now c).currentTarget = c.currentTarget) := by
  unfold V1.handleInputUpdate V1.checkTimeout V1.touch
  simp only [hexp, if_false, hd, ite_false]
  refine ⟨fun h1 => ?_, fun h1 h2 h3 => ?_, fun h1 h2 => ?_⟩
  · simp [h1]
  · subst h2
    simp [h1, h3]
  · simp [h1, h2]

/-- Witness for C2: from `source="de"`, `target="ru"`,
`lastForeign="de"`, `handleInputUpdate("ru")` flips to
`source="ru"`, `target="de"`. -/
theorem claim_C2_witness :
    (V1.handleInputUpdate "ru" 2
        (V1.handleExternalInput "de" 1 (V1.mk "ru" "en" 60 0))).currentSource
      = "ru" ∧
    (V1.handleInputUpdate "ru" 2
        (V1.handleExternalInput "de" 1 (V1.mk "ru" "en" 60 0))).currentTarget
      = (if "ru" = (V1.handleExternalInput "de" 1
            (V1.mk "ru" "en" 60 0)).primary
         then (V1.handleExternalInput "de" 1
            (V1.mk "ru" "en" 60 0)).lastForeign
         else (V1.handleExternalInput "de" 1
            (V1.mk "ru" "en" 60 0)).primary) :=
  (claim_C2 (V1.handleExternalInput "de" 1 (V1.mk "ru" "en" 60 0)) "ru" 2
      (by decide) (by decide)).1 (by decide)

/-- Counterexample to claim C3 as stated: on an *expired* context,
`updateFromApiResult` runs its internal timeout check first and compares
against the reset `currentTarget`.  A context with `currentTarget = "ru"`
(reached by one inversion from a fresh `ru`/`en` context) receives
`d = "ru"` after expiry: the claim's biconditional demands `true`, the
code resets the target to `"en"` and returns `false`. -/
theorem claim_C3_counterexample :
    (V2.updateFromApiResult "en" 1 (V2.mk "ru" "en" 60 0)).2.currentTarget
      = "ru" ∧
    V2.isExpired 9999999
      (V2.updateFromApiResult "en" 1 (V2.mk "ru" "en" 60 0)).2 ∧
    (V2.updateFromApiResult "ru" 9999999
      (V2.updateFromApiResult "en" 1 (V2.mk "ru" "en" 60 0)).2).1
      = false := by
  decide

/-- Claim C3, amended: for every non-empty detected language `d` *on a
non-expired context*, `updateFromApiResult(d)` returns `true` iff `d`
equals `currentTarget`; on inversion `currentSource` becomes the old
`currentTarget` and `currentTarget` becomes `lastForeign` when the old
target was the primary language, else the primary language; otherwise it
returns `false`, sets `currentSource := d` and updates `lastForeign` to
`d` only when `d` is not the primary language.  (On an expired context
the internal timeout check resets the state first, so the comparison uses
the reset `currentTarget`.) -/
theorem claim_C3_amended (c : V2.TranslationContext) (d : String) (now : Nat)
    (hd : d ≠ "") (hexp : ¬ V2.isExpired now c) :
    ((V2.updateFromApiResult d now c).1 = true ↔ d = c.currentTarget) ∧
    (d = c.currentTarget →
      (V2.updateFromApiResult d now c).2.currentSource = c.currentTarget ∧
      (V2.updateFromApiResult d now c).2.currentTarget =
        (if c.currentTarget = c.primary then c.lastForeign
         else c.primary)) ∧
    (d ≠ c.currentTarget →
      (V2.updateFromApiResult d now c).1 = false ∧
      (V2.updateFromApiResult d now c).2.currentSource = d ∧
      (V2.updateFromApiResult d now c).2.lastForeign =
        (if d ≠ c.primary then d else c.lastForeign)) := by
  unfold V2.updateFromApiResult V2.checkTimeout V2.touch
  simp only [hexp, if_false, hd, ite_false]
  refine ⟨?_, fun h1 => ?_, fun h1 => ?_⟩
  · by_cases h : d = c.currentTarget <;> simp [h]
  · simp [h1]
  · by_cases hp : d = c.primary
    · subst hp
      simp [h1]
    · simp [h1, hp]

/-- Witness for the amended C3: on a fresh non-expired context
(`ru`/`en`), the provider detecting `"en"` (the current target) signals
inversion. -/
theorem claim_C3_witness :
    ((V2.updateFromApiResult "en" 1 (V2.mk "ru" "en" 60 0)).1 = true ↔
      "en" = (V2.mk "ru" "en" 60 0).currentTarget) ∧
    (V2.updateFromApiResult "en" 1 (V2.mk "ru" "en" 60 0)).2.currentSource
      = (V2.mk "ru" "en" 60 0).currentTarget ∧
    (V2.updateFromApiResult "en" 1 (V2.mk "ru" "en" 60 0)).2.currentTarget
      = (if (V2.mk "ru" "en" 60 0).currentTarget
            = (V2.mk "ru" "en" 60 0).primary
         then (V2.mk "ru" "en" 60 0).lastForeign
         else (V2.mk "ru" "en" 60 0).primary) :=
  ⟨(claim_C3_amended (V2.mk "ru" "en" 60 0) "en" 1 (by decide)
      (by decide)).1,
   (claim_C3_amended (V2.mk "ru" "en" 60 0) "en" 1 (by decide)
      (by decide)).2.1 (by decide)⟩

/-- Counterexample to claim C4 as stated: the generation-2 constructor
(the `TranslationContext.js` shipped with `updateFromApiResult`) sets
`currentSource` to the primary language, not to `"auto"`. -/
theorem claim_C4_counterexample :
    (V2.mk "ru" "en" 60 0).currentSource = "ru" ∧
    ¬ (V2.mk "ru" "en" 60 0).currentSource = "auto" := by
  decide

/-- Claim C4, amended: on construction and after an expired `checkTimeout`,
`currentTarget` and `lastForeign` equal `defaultForeign` in both
generations; `currentSource` is `"auto"` in generation 1 but the primary
language in generation 2. -/
theorem claim_C4_amended :
    (∀ p f t n, (V1.mk p f t n).currentSource = "auto" ∧
      (V1.mk p f t n).currentTarget = (V1.mk p f t n).defaultForeign ∧
      (V1.mk p f t n).lastForeign = (V1.mk p f t n).defaultForeign) ∧
    (∀ (c : V1.TranslationContext) now, V1.isExpired now c →
      (V1.checkTimeout now c).currentSource = "auto" ∧
      (V1.checkTimeout now c).currentTarget = c.defaultForeign ∧
      (V1.checkTimeout now c).lastForeign = c.defaultForeign) ∧
    (∀ p f t n, (V2.mk p f t n).currentSource = (V2.mk p f t n).primary ∧
      (V2.mk p f t n).currentTarget = (V2.mk p f t n).defaultForeign ∧
      (V2.mk p f t n).lastForeign = (V2.mk p f t n).defaultForeign) ∧
    (∀ (c : V2.TranslationContext) now, V2.isExpired now c →
      (V2.checkTimeout now c).currentSource = c.primary ∧
      (V2.checkTimeout now c).currentTarget = c.defaultForeign ∧
      (V2.checkTimeout now c).lastForeign = c.defaultForeign) := by
  refine ⟨fun p f t n => ?_, fun c now h => ?_, fun p f t n => ?_,
    fun c now h => ?_⟩
  · simp [V1.mk]
  · simp [V1.checkTimeout, h]
  · simp [V2.mk]
  · simp [V2.checkTimeout, h]

/-- Witness for the amended C4: an expired `checkTimeout` on a 60-minute
session constructed at time 0, checked at time 3600001. -/
theorem claim_C4_witness :
    (V1.checkTimeout 3600001 (V1.mk "ru" "en" 60 0)).currentSource
        = "auto" ∧
    (V2.checkTimeout 3600001 (V2.mk "ru" "en" 60 0)).currentSource
        = (V2.mk "ru" "en" 60 0).primary :=
  ⟨(claim_C4_amended.2.1 (V1.mk "ru" "en" 60 0) 3600001 (by decide)).1,
   (claim_C4_amended.2.2.2 (V2.mk "ru" "en" 60 0) 3600001 (by decide)).1⟩

/-- Claim C6: `detectLanguage` returns `null` for texts shorter than 3
characters; for texts of length in `[3,10)` whose best detector score is
below 0.75; and whenever the best-scoring detector code has no entry in
the ISO mapping table. -/
theorem claim_C6 :
    (∀ (fa : String → List String → List (String × ℚ)) (text : String)
        (pr : List String), text.length < 3 →
      LanguageUtils.detectLanguage fa text pr = none) ∧
    (∀ (fa : String → List String → List (String × ℚ)) (text : String)
        (pr : List String) (code : String) (score : ℚ)
        (rest : List (String × ℚ)),
      3 ≤ text.length → text.length < 10 →
      fa text (LanguageUtils.whitelistOf pr) = (code, score) :: rest →
      score < LanguageUtils.confidenceThreshold →
      LanguageUtils.detectLanguage fa text pr = none) ∧
    (∀ (fa : String → List String → List (String × ℚ)) (text : String)
        (pr : List String) (code : String) (score : ℚ)
        (rest : List (String × ℚ)),
      fa text (LanguageUtils.whitelistOf pr) = (code, score) :: rest →
      List.lookup code LanguageUtils.isoMap = none →
      LanguageUtils.detectLanguage fa text pr = none) := by
  refine ⟨fun fa text pr h => ?_, fun fa text pr code score rest h3 h10 hfa
    hscore => ?_, fun fa text pr code score rest hfa hlook => ?_⟩
  · unfold LanguageUtils.detectLanguage
    simp [h]
  · unfold LanguageUtils.detectLanguage
    have hne : ¬ (text = "" ∨ text.length < 3) := by
      rintro (h | h)
      · subst h
        exact absurd h3 (by decide)
      · omega
    rw [if_neg hne]
    simp only [hfa]
    rw [if_pos ⟨h10, hscore⟩]
  · unfold LanguageUtils.detectLanguage
    by_cases hshort : text = "" ∨ text.length < 3
    · simp [hshort]
    · rw [if_neg hshort]
      simp only [hfa]
      by_cases hthr : text.length < 10 ∧ score < LanguageUtils.confidenceThreshold
      · rw [if_pos hthr]
      · rw [if_neg hthr]
        exact hlook

/-- Witness for C6: a 2-character text; a 4-character text whose best
score is 1/2; and a 10-character text whose best code `"xxx"` is
unmapped. -/
theorem claim_C6_witness :
    LanguageUtils.detectLanguage (fun _ _ => []) "ab" [] = none ∧
    LanguageUtils.detectLanguage (fun _ _ => [("eng", mkRat 1 2)]) "abcd" []
      = none ∧
    LanguageUtils.detectLanguage (fun _ _ => [("xxx", 1)]) "abcdefghij" []
      = none :=
  ⟨claim_C6.1 (fun _ _ => []) "ab" [] (by decide),
   claim_C6.2.1 (fun _ _ => [("eng", mkRat 1 2)]) "abcd" [] "eng"
     (mkRat 1 2) [] (by decide) (by decide) rfl (by decide),
   claim_C6.2.2 (fun _ _ => [("xxx", 1)]) "abcdefghij" [] "xxx" 1 [] rfl
     (by decide)⟩

/-- Counterexample to claim C9 as stated: a generation-2 state (reached by
one inversion from a fresh `ru`/`en` context) where the old default equals
`lastForeign` but not `currentTarget`; `updateConfig` with new default
`"fr"` cascades into `lastForeign` only, not into `currentTarget`, though
the claim requires both. -/
theorem claim_C9_counterexample :
    (V2.updateFromApiResult "en" 1 (V2.mk "ru" "en" 60 0)).2.lastForeign
      = (V2.updateFromApiResult "en" 1 (V2.mk "ru" "en" 60 0)).2.defaultForeign
      ∧
    ¬ V2.isExpired 1 (V2.updateFromApiResult "en" 1 (V2.mk "ru" "en" 60 0)).2
      ∧
    (V2.updateConfig "" "fr" 0 1
        (V2.updateFromApiResult "en" 1 (V2.mk "ru" "en" 60 0)).2).lastForeign
      = "fr" ∧
    (V2.updateConfig "" "fr" 0 1
        (V2.updateFromApiResult "en" 1 (V2.mk "ru" "en" 60 0)).2).currentTarget
      ≠ "fr" := by
  decide

/-- Claim C9, amended: each field cascades under its own condition.  In
generation 2, `lastForeign` becomes the new default iff the old default
equalled `lastForeign` or the session is expired, and `currentTarget`
becomes the new default iff the old default equalled `currentTarget` or
the session is expired.  In generation 1 only `lastForeign` cascades;
`currentTarget` is never touched by `updateConfig`. -/
theorem claim_C9_amended (cv2 : V2.TranslationContext)
    (cv1 : V1.TranslationContext) (p s : String) (t now : Nat)
    (hs : s ≠ "") :
    (V2.updateConfig p s t now cv2).lastForeign =
      (if cv2.lastForeign = cv2.defaultForeign ∨ V2.isExpired now cv2
       then s else cv2.lastForeign) ∧
    (V2.updateConfig p s t now cv2).currentTarget =
      (if cv2.currentTarget = cv2.defaultForeign ∨ V2.isExpired now cv2
       then s else cv2.currentTarget) ∧
    (V1.updateConfig p s t now cv1).currentTarget = cv1.currentTarget ∧
    (V1.updateConfig p s t now cv1).lastForeign =
      (if cv1.lastForeign = cv1.defaultForeign ∨ V1.isExpired now cv1
       then s else cv1.lastForeign) := by
  unfold V2.updateConfig V1.updateConfig V2.isExpired V1.isExpired
  by_cases hp : p = "" <;> by_cases ht : t = 0 <;>
    simp only [hs, hp, ht, ite_false, ite_true, if_false, if_true] <;>
    split_ifs <;> simp_all

/-- Witness for the amended C9: fresh `ru`/`en` generation-2 context, new
default `"fr"` at time 1 — both fields cascade because they still point at
the old default. -/
theorem claim_C9_witness :
    (V2.updateConfig "" "fr" 0 1 (V2.mk "ru" "en" 60 0)).lastForeign =
      (if (V2.mk "ru" "en" 60 0).lastForeign
            = (V2.mk "ru" "en" 60 0).defaultForeign
          ∨ V2.isExpired 1 (V2.mk "ru" "en" 60 0)
       then "fr" else (V2.mk "ru" "en" 60 0).lastForeign) ∧
    (V2.updateConfig "" "fr" 0 1 (V2.mk "ru" "en" 60 0)).currentTarget =
      (if (V2.mk "ru" "en" 60 0).currentTarget
            = (V2.mk "ru" "en" 60 0).defaultForeign
          ∨ V2.isExpired 1 (V2.mk "ru" "en" 60 0)
       then "fr" else (V2.mk "ru" "en" 60 0).currentTarget) :=
  ⟨(claim_C9_amended (V2.mk "ru" "en" 60 0) (V1.mk "ru" "en" 60 0) "" "fr"
      0 1 (by decide)).1,
   (claim_C9_amended (V2.mk "ru" "en" 60 0) (V1.mk "ru" "en" 60 0) "" "fr"
      0 1 (by decide)).2.1⟩

/-- Counterexample to claim C10 as stated: on an *expired* context, an
empty detection still runs the timeout reset first, so `currentSource`
does change. -/
theorem claim_C10_counterexample :
    (V1.handleExternalInput "de" 1 (V1.mk "ru" "en" 60 0)).currentSource
      = "de" ∧
    (V1.handleExternalInput "" 9999999
        (V1.handleExternalInput "de" 1 (V1.mk "ru" "en" 60 0))).currentSource
      = "auto" := by
  decide

/-- Claim C10, amended: on a *non-expired* context, `handleExternalInput`
and `handleInputUpdate` with an empty/null detected language change
nothing except `lastActivity`, which is set to the current time; hence a
stream of failed detections arriving within the timeout window postpones
session expiry indefinitely. -/
theorem claim_C10_amended (c : V1.TranslationContext) (now : Nat)
    (hexp : ¬ V1.isExpired now c) :
    V1.handleExternalInput "" now c = { c with lastActivity := now } ∧
    V1.handleInputUpdate "" now c = { c with lastActivity := now } ∧
    ∀ later, later - now ≤ c.timeoutMs →
      ¬ V1.isExpired later (V1.handleExternalInput "" now c) ∧
      ¬ V1.isExpired later (V1.handleInputUpdate "" now c) := by
  unfold V1.handleExternalInput V1.handleInputUpdate V1.checkTimeout
    V1.touch
  simp only [hexp, if_false, ite_false, ite_true, if_true]
  refine ⟨by simp, by simp, fun later h => ?_⟩
  unfold V1.isExpired
  simp only []
  constructor <;> simp <;> omega

/-- Witness for the amended C10: an empty detection at time 5 on a fresh
context only refreshes the timestamp, and the session is still alive at
time 3600005. -/
theorem claim_C10_witness :
    V1.handleExternalInput "" 5 (V1.mk "ru" "en" 60 0)
      = { V1.mk "ru" "en" 60 0 with lastActivity := 5 } ∧
    ¬ V1.isExpired 3600005 (V1.handleExternalInput "" 5
        (V1.mk "ru" "en" 60 0)) :=
  ⟨(claim_C10_amended (V1.mk "ru" "en" 60 0) 5 (by decide)).1,
   ((claim_C10_amended (V1.mk "ru" "en" 60 0) 5 (by decide)).2.2 3600005
      (by decide)).1⟩

/-- `handleExternalInput` never changes `primary` or `defaultForeign`. -/
lemma v1_ext_const (c : V1.TranslationContext) (d : String) (now : Nat) :
    (V1.handleExternalInput d now c).primary = c.primary ∧
    (V1.handleExternalInput d now c).defaultForeign = c.defaultForeign := by
  simp only [V1.handleExternalInput, V1.checkTimeout, V1.touch]
  split_ifs <;> exact ⟨rfl, rfl⟩

/-- `handleInputUpdate` never changes `primary` or `defaultForeign`. -/
lemma v1_upd_const (c : V1.TranslationContext) (d : String) (now : Nat) :
    (V1.handleInputUpdate d now c).primary = c.primary ∧
    (V1.handleInputUpdate d now c).defaultForeign = c.defaultForeign := by
  simp only [V1.handleInputUpdate, V1.checkTimeout, V1.touch]
  split_ifs <;> exact ⟨rfl, rfl⟩

/-- Generation-1 `checkTimeout` never changes `primary` or
`defaultForeign`. -/
lemma v1_timeout_const (c : V1.TranslationContext) (now : Nat) :
    (V1.checkTimeout now c).primary = c.primary ∧
    (V1.checkTimeout now c).defaultForeign = c.defaultForeign := by
  simp only [V1.checkTimeout]
  split_ifs <;> exact ⟨rfl, rfl⟩

/-- The timeout-check-plus-touch prefix of the generation-1 operations
preserves the strengthened invariant. -/
lemma v1_core_inv (c : V1.TranslationContext) (now : Nat)
    (hpf : c.primary ≠ c.defaultForeign)
    (h1 : c.lastForeign ≠ c.primary)
    (h2 : c.currentSource = "auto" ∨ c.currentSource ≠ c.currentTarget) :
    (V1.touch now (V1.checkTimeout now c)).lastForeign
        ≠ (V1.touch now (V1.checkTimeout now c)).primary ∧
    ((V1.touch now (V1.checkTimeout now c)).currentSource = "auto" ∨
      (V1.touch now (V1.checkTimeout now c)).currentSource
        ≠ (V1.touch now (V1.checkTimeout now c)).currentTarget) := by
  simp only [V1.checkTimeout, V1.touch]
  split_ifs
  · exact ⟨Ne.symm hpf, Or.inl rfl⟩
  · exact ⟨h1, h2⟩

/-- `handleExternalInput` preserves the strengthened invariant. -/
lemma v1_ext_inv (c : V1.TranslationContext) (d : String) (now : Nat)
    (hpf : c.primary ≠ c.defaultForeign)
    (h1 : c.lastForeign ≠ c.primary)
    (h2 : c.currentSource = "auto" ∨ c.currentSource ≠ c.currentTarget) :
    (V1.handleExternalInput d now c).lastForeign
        ≠ (V1.handleExternalInput d now c).primary ∧
    ((V1.handleExternalInput d now c).currentSource = "auto" ∨
      (V1.handleExternalInput d now c).currentSource
        ≠ (V1.handleExternalInput d now c).currentTarget) := by
  obtain ⟨h1x, h2x⟩ := v1_core_inv c now hpf h1 h2
  simp only [V1.handleExternalInput]
  split_ifs with hA hB
  · exact ⟨h1x, h2x⟩
  · exact ⟨h1x, Or.inr (Ne.symm h1x)⟩
  · exact ⟨hB, Or.inr hB⟩

/-- `handleInputUpdate` preserves the strengthened invariant. -/
lemma v1_upd_inv (c : V1.TranslationContext) (d : String) (now : Nat)
    (hpf : c.primary ≠ c.defaultForeign)
    (h1 : c.lastForeign ≠ c.primary)
    (h2 : c.currentSource = "auto" ∨ c.currentSource ≠ c.currentTarget) :
    (V1.handleInputUpdate d now c).lastForeign
        ≠ (V1.handleInputUpdate d now c).primary ∧
    ((V1.handleInputUpdate d now c).currentSource = "auto" ∨
      (V1.handleInputUpdate d now c).currentSource
        ≠ (V1.handleInputUpdate d now c).currentTarget) := by
  obtain ⟨h1x, h2x⟩ := v1_core_inv c now hpf h1 h2
  simp only [V1.handleInputUpdate]
  split_ifs with hA hB hC
  · exact ⟨h1x, h2x⟩
  · refine ⟨h1x, Or.inr ?_⟩
    rw [hC]
    exact Ne.symm h1x
  · exact ⟨h1x, Or.inr hC⟩
  · exact ⟨h1x, Or.inr h1x⟩
  · exact ⟨h1x, h2x⟩

/-- Generation-1 `checkTimeout` preserves the strengthened invariant. -/
lemma v1_timeout_inv (c : V1.TranslationContext) (now : Nat)
    (hpf : c.primary ≠ c.defaultForeign)
    (h1 : c.lastForeign ≠ c.primary)
    (h2 : c.currentSource = "auto" ∨ c.currentSource ≠ c.currentTarget) :
    (V1.checkTimeout now c).lastForeign ≠ (V1.checkTimeout now c).primary ∧
    ((V1.checkTimeout now c).currentSource = "auto" ∨
      (V1.checkTimeout now c).currentSource
        ≠ (V1.checkTimeout now c).currentTarget) := by
  simp only [V1.checkTimeout]
  split_ifs
  · exact ⟨Ne.symm hpf, Or.inl rfl⟩
  · exact ⟨h1, h2⟩

/-- Strengthened reachability invariant of the generation-1 machine:
`lastForeign` never equals the primary language, and the pair is safe. -/
lemma v1_reach_inv {c : V1.TranslationContext} (h : V1Reach c)
    (hpf : c.primary ≠ c.defaultForeign) :
    c.lastForeign ≠ c.primary ∧
      (c.currentSource = "auto" ∨ c.currentSource ≠ c.currentTarget) := by
  induction h with
  | init p f t now =>
    exact ⟨Ne.symm hpf, Or.inl rfl⟩
  | ext c0 d now hr ih =>
    obtain ⟨hp, hdf⟩ := v1_ext_const c0 d now
    rw [hp, hdf] at hpf
    obtain ⟨h1, h2⟩ := ih hpf
    exact v1_ext_inv c0 d now hpf h1 h2
  | upd c0 d now hr ih =>
    obtain ⟨hp, hdf⟩ := v1_upd_const c0 d now
    rw [hp, hdf] at hpf
    obtain ⟨h1, h2⟩ := ih hpf
    exact v1_upd_inv c0 d now hpf h1 h2
  | timeout c0 now hr ih =>
    obtain ⟨hp, hdf⟩ := v1_timeout_const c0 now
    rw [hp, hdf] at hpf
    obtain ⟨h1, h2⟩ := ih hpf
    exact v1_timeout_inv c0 now hpf h1 h2

/-- `updateFromApiResult` never changes `primary` or `defaultForeign`. -/
lemma v2_api_const (c : V2.TranslationContext) (d : String) (now : Nat) :
    (V2.updateFromApiResult d now c).2.primary = c.primary ∧
    (V2.updateFromApiResult d now c).2.defaultForeign = c.defaultForeign := by
  simp only [V2.updateFromApiResult, V2.checkTimeout, V2.touch]
  split_ifs <;> exact ⟨rfl, rfl⟩

/-- Generation-2 `checkTimeout` never changes `primary` or
`defaultForeign`. -/
lemma v2_timeout_const (c : V2.TranslationContext) (now : Nat) :
    (V2.checkTimeout now c).primary = c.primary ∧
    (V2.checkTimeout now c).defaultForeign = c.defaultForeign := by
  simp only [V2.checkTimeout]
  split_ifs <;> exact ⟨rfl, rfl⟩

/-- The timeout-check-plus-touch prefix of `updateFromApiResult`
preserves the strengthened invariant. -/
lemma v2_core_inv (c : V2.TranslationContext) (now : Nat)
    (hpf : c.primary ≠ c.defaultForeign)
    (h1 : c.lastForeign ≠ c.primary)
    (h2 : c.currentSource = "auto" ∨ c.currentSource ≠ c.currentTarget) :
    (V2.touch now (V2.checkTimeout now c)).lastForeign
        ≠ (V2.touch now (V2.checkTimeout now c)).primary ∧
    ((V2.touch now (V2.checkTimeout now c)).currentSource = "auto" ∨
      (V2.touch now (V2.checkTimeout now c)).currentSource
        ≠ (V2.touch now (V2.checkTimeout now c)).currentTarget) := by
  simp only [V2.checkTimeout, V2.touch]
  split_ifs
  · exact ⟨Ne.symm hpf, Or.inr hpf⟩
  · exact ⟨h1, h2⟩

/-- `updateFromApiResult` preserves the strengthened invariant. -/
lemma v2_api_inv (c : V2.TranslationContext) (d : String) (now : Nat)
    (hpf : c.primary ≠ c.defaultForeign)
    (h1 : c.lastForeign ≠ c.primary)
    (h2 : c.currentSource = "auto" ∨ c.currentSource ≠ c.currentTarget) :
    (V2.updateFromApiResult d now c).2.lastForeign
        ≠ (V2.updateFromApiResult d now c).2.primary ∧
    ((V2.updateFromApiResult d now c).2.currentSource = "auto" ∨
      (V2.updateFromApiResult d now c).2.currentSource
        ≠ (V2.updateFromApiResult d now c).2.currentTarget) := by
  obtain ⟨h1x, h2x⟩ := v2_core_inv c now hpf h1 h2
  simp only [V2.updateFromApiResult]
  split_ifs with hA hB hC hD
  · exact ⟨h1x, h2x⟩
  · refine ⟨h1x, Or.inr ?_⟩
    rw [hC]
    exact Ne.symm h1x
  · exact ⟨h1x, Or.inr hC⟩
  · exact ⟨hD, Or.inr hB⟩
  · exact ⟨h1x, Or.inr hB⟩

/-- Generation-2 `checkTimeout` preserves the strengthened invariant. -/
lemma v2_timeout_inv (c : V2.TranslationContext) (now : Nat)
    (hpf : c.primary ≠ c.defaultForeign)
    (h1 : c.lastForeign ≠ c.primary)
    (h2 : c.currentSource = "auto" ∨ c.currentSource ≠ c.currentTarget) :
    (V2.checkTimeout now c).lastForeign ≠ (V2.checkTimeout now c).primary ∧
    ((V2.checkTimeout now c).currentSource = "auto" ∨
      (V2.checkTimeout now c).currentSource
        ≠ (V2.checkTimeout now c).currentTarget) := by
  simp only [V2.checkTimeout]
  split_ifs
  · exact ⟨Ne.symm hpf, Or.inr hpf⟩
  · exact ⟨h1, h2⟩

/-- Strengthened reachability invariant of the generation-2 machine. -/
lemma v2_reach_inv {c : V2.TranslationContext} (h : V2Reach c)
    (hpf : c.primary ≠ c.defaultForeign) :
    c.lastForeign ≠ c.primary ∧
      (c.currentSource = "auto" ∨ c.currentSource ≠ c.currentTarget) := by
  induction h with
  | init p f t now =>
    exact ⟨Ne.symm hpf, Or.inr hpf⟩
  | api c0 d now hr ih =>
    obtain ⟨hp, hdf⟩ := v2_api_const c0 d now
    rw [hp, hdf] at hpf
    obtain ⟨h1, h2⟩ := ih hpf
    exact v2_api_inv c0 d now hpf h1 h2
  | timeout c0 now hr ih =>
    obtain ⟨hp, hdf⟩ := v2_timeout_const c0 now
    rw [hp, hdf] at hpf
    obtain ⟨h1, h2⟩ := ih hpf
    exact v2_timeout_inv c0 now hpf h1 h2

/-- Counterexample to claim C5 as stated: `setManualPair("de", "de")` —
one of the six operations the claim quantifies over — makes
`currentSource` and `currentTarget` the same concrete code on a fresh
`ru`/`en` generation-2 context. -/
theorem claim_C5_counterexample :
    (V2.setManualPair "de" "de" 1 (V2.mk "ru" "en" 60 0)).currentSource
      = (V2.setManualPair "de" "de" 1 (V2.mk "ru" "en" 60 0)).currentTarget
      ∧
    (V2.setManualPair "de" "de" 1 (V2.mk "ru" "en" 60 0)).currentSource
      = "de" := by
  decide

/-- Claim C5, amended: for contexts constructed with distinct primary and
default foreign languages, every state reachable through
`handleExternalInput`, `handleInputUpdate` and `checkTimeout`
(generation 1), or through `updateFromApiResult` and `checkTimeout`
(generation 2), never has `currentSource` and `currentTarget` equal to the
same concrete (non-`"auto"`) code; `setManualPair` and `updateConfig` can
break the invariant. -/
theorem claim_C5_amended :
    (∀ c : V1.TranslationContext, V1Reach c →
      c.primary ≠ c.defaultForeign →
      ¬ (c.currentSource = c.currentTarget ∧ c.currentSource ≠ "auto")) ∧
    (∀ c : V2.TranslationContext, V2Reach c →
      c.primary ≠ c.defaultForeign →
      ¬ (c.currentSource = c.currentTarget ∧ c.currentSource ≠ "auto")) := by
  constructor <;> intro c hr hpf hbad
  · rcases (v1_reach_inv hr hpf).2 with h | h
    · exact hbad.2 h
    · exact h hbad.1
  · rcases (v2_reach_inv hr hpf).2 with h | h
    · exact hbad.2 h
    · exact h hbad.1

/-- Witness for the amended C5: concrete reachable states, one per
generation. -/
theorem claim_C5_witness :
    ¬ ((V1.handleExternalInput "de" 1 (V1.mk "ru" "en" 60 0)).currentSource
        = (V1.handleExternalInput "de" 1
            (V1.mk "ru" "en" 60 0)).currentTarget ∧
      (V1.handleExternalInput "de" 1 (V1.mk "ru" "en" 60 0)).currentSource
        ≠ "auto") ∧
    ¬ ((V2.updateFromApiResult "de" 1
          (V2.mk "ru" "en" 60 0)).2.currentSource
        = (V2.updateFromApiResult "de" 1
            (V2.mk "ru" "en" 60 0)).2.currentTarget ∧
      (V2.updateFromApiResult "de" 1
          (V2.mk "ru" "en" 60 0)).2.currentSource ≠ "auto") :=
  ⟨claim_C5_amended.1 _
      (V1Reach.ext (V1.mk "ru" "en" 60 0) "de" 1
        (V1Reach.init "ru" "en" 60 0)) (by decide),
   claim_C5_amended.2 _
      (V2Reach.api (V2.mk "ru" "en" 60 0) "de" 1
        (V2Reach.init "ru" "en" 60 0)) (by decide)⟩

/-- The smart-resolution step of the generation-1 `translate` mutates only
the context: cache and history are untouched. -/
lemma resolve_frame (fa : String → List String → List (String × ℚ))
    (st : TranslationManagerV1.State) (text sourceLang targetLang : String)
    (isExternal : Bool) (now : Nat) :
    (TranslationManagerV1.resolve fa st text sourceLang targetLang
        isExternal now).1.cache = st.cache ∧
    (TranslationManagerV1.resolve fa st text sourceLang targetLang
        isExternal now).1.history = st.history := by
  unfold TranslationManagerV1.resolve
  cases h : st.context
  · simp [h]
  · simp only [h]
    split_ifs <;> exact ⟨rfl, rfl⟩

/-- Claim C7: if a response is cached under the key
`(provider, text, source, target)` and a later `translate` call resolves
to the same triple within the TTL, the call returns the cached response
tagged `fromCache := true`, issues no provider call, and leaves history
(and cache) unchanged. -/
theorem claim_C7 (mockProv : Provider)
    (francAll : String → List String → List (String × ℚ))
    (st st1 : TranslationManagerV1.State) (prov : Provider)
    (text sourceLang targetLang fs ft : String) (isExternal : Bool)
    (now : Nat) (entry : Response)
    (htext : ¬ jsTrim text = "")
    (hprov : st.activeProvider = some prov)
    (hres : TranslationManagerV1.resolve francAll st text sourceLang
      targetLang isExternal now = (st1, fs, ft))
    (hhit : assocGet st.cache (getCacheKey prov.name text fs ft)
      = some entry)
    (hts : entry.timestamp ≠ 0)
    (httl : now - entry.timestamp < cacheTTL) :
    (TranslationManagerV1.translate mockProv francAll st text sourceLang
        targetLang isExternal now).response
      = { entry with fromCache := true } ∧
    (TranslationManagerV1.translate mockProv francAll st text sourceLang
        targetLang isExternal now).state.history = st.history ∧
    (TranslationManagerV1.translate mockProv francAll st text sourceLang
        targetLang isExternal now).state.cache = st.cache ∧
    (TranslationManagerV1.translate mockProv francAll st text sourceLang
        targetLang isExternal now).providerCalls = 0 := by
  have hframe := resolve_frame francAll st text sourceLang targetLang
    isExternal now
  rw [hres] at hframe
  have hfc : st1.cache = st.cache := by simpa using hframe.1
  have hfh : st1.history = st.history := by simpa using hframe.2
  unfold TranslationManagerV1.translate
  rw [if_neg htext, hprov]
  simp only [hres, hfc, hhit]
  rw [if_pos ⟨hts, httl⟩]
  exact ⟨rfl, hfh, hfc, rfl⟩

/-- Witness for C7: a concrete manager state holding a cached `google`
response; the repeated request returns it tagged `fromCache` with zero
provider calls. -/
theorem claim_C7_witness :
    (TranslationManagerV1.translate mockProvSample francNone hitStateV1
        "hello" "auto" "ru" true 6).response
      = { cachedEntrySample with fromCache := true } ∧
    (TranslationManagerV1.translate mockProvSample francNone hitStateV1
        "hello" "auto" "ru" true 6).providerCalls = 0 :=
  ⟨(claim_C7 mockProvSample francNone hitStateV1 hitStateV1 googleProv
      "hello" "auto" "ru" "auto" "ru" true 6 cachedEntrySample (by decide)
      rfl rfl rfl (by decide) (by decide)).1,
   (claim_C7 mockProvSample francNone hitStateV1 hitStateV1 googleProv
      "hello" "auto" "ru" "auto" "ru" true 6 cachedEntrySample (by decide)
      rfl rfl rfl (by decide) (by decide)).2.2.2⟩

/-- Counterexample to claim C8 as stated: a failed generation-2 call with
an explicit source/target pair still mutates the context (through
`setManualPair`, issued before the provider call), so the context is not
left unchanged by the failed call. -/
theorem claim_C8_counterexample :
    (TranslationManagerV2.translate mockProvSample errStateV2 "hello" "de"
        "fr" 1).response.error = some "boom" ∧
    (TranslationManagerV2.translate mockProvSample errStateV2 "hello" "de"
        "fr" 1).state.context ≠ errStateV2.context := by
  decide

/-- Claim C8, amended: whenever the provider reports an error — in the
generation-1 manager's provider call, in the generation-2 first call
(any source/target arguments, so also after a timeout reset or a manual
pair), or in the generation-2 inversion re-issue — no cache insertion and
no history insertion occur and the caller receives the structured error
response carrying the provider identifier and the error type (never a raw
exception); the error-handling path itself performs no context mutation:
the returned state is exactly the state at the failing provider call.
Context mutations issued earlier in the same call (timeout reset, manual
pair, inversion update) persist, so the context is not in general left
unchanged by a failed call. -/
theorem claim_C8_amended :
    (∀ (mockProv : Provider)
        (francAll : String → List String → List (String × ℚ))
        (st st1 : TranslationManagerV1.State) (prov : Provider)
        (text sourceLang targetLang fs ft : String) (isExternal : Bool)
        (now : Nat) (err : TranslationError),
      ¬ jsTrim text = "" →
      st.activeProvider = some prov →
      TranslationManagerV1.resolve francAll st text sourceLang targetLang
        isExternal now = (st1, fs, ft) →
      assocGet st.cache (getCacheKey prov.name text fs ft) = none →
      (prov.tr text fs ft).error = some err →
      (TranslationManagerV1.translate mockProv francAll st text sourceLang
          targetLang isExternal now).response
        = { translatedText := "", error := some err.message
            provider := prov.name, errorType := some err.type } ∧
      (TranslationManagerV1.translate mockProv francAll st text sourceLang
          targetLang isExternal now).state = st1 ∧
      (TranslationManagerV1.translate mockProv francAll st text sourceLang
          targetLang isExternal now).state.cache = st.cache ∧
      (TranslationManagerV1.translate mockProv francAll st text sourceLang
          targetLang isExternal now).state.history = st.history ∧
      (TranslationManagerV1.translate mockProv francAll st text sourceLang
          targetLang isExternal now).providerCalls = 1) ∧
    (∀ (mockProv prov : Provider) (st : TranslationManagerV2.State)
        (ctx c2 : V2.TranslationContext)
        (text sourceLang targetLang rs ft : String) (now : Nat)
        (err : TranslationError),
      ¬ jsTrim text = "" →
      st.activeProvider = some prov →
      st.context = some ctx →
      (if sourceLang ≠ "" ∧ sourceLang ≠ "auto" ∧ targetLang ≠ "" then
          V2.setManualPair sourceLang targetLang now
            (V2.checkTimeout now ctx)
        else V2.checkTimeout now ctx) = c2 →
      (if sourceLang = "" ∨ sourceLang = "auto" then "auto"
        else sourceLang) = rs →
      (if targetLang ≠ "" then targetLang else c2.currentTarget) = ft →
      assocGet st.cache (getCacheKey prov.name text
        (if rs = "auto" then c2.currentSource else rs) ft) = none →
      (prov.tr text rs ft).error = some err →
      (TranslationManagerV2.translate mockProv st text sourceLang
          targetLang now).response
        = { translatedText := "", error := some err.message
            provider := prov.name, errorType := some err.type } ∧
      (TranslationManagerV2.translate mockProv st text sourceLang
          targetLang now).state = { st with context := some c2 } ∧
      (TranslationManagerV2.translate mockProv st text sourceLang
          targetLang now).providerCalls = 1) ∧
    (∀ (mockProv prov : Provider) (st : TranslationManagerV2.State)
        (ctx c2 c3 : V2.TranslationContext) (text targetLang ft : String)
        (now : Nat) (r1 : ProviderResult) (err : TranslationError),
      ¬ jsTrim text = "" →
      st.activeProvider = some prov →
      st.context = some ctx →
      V2.checkTimeout now ctx = c2 →
      (if targetLang ≠ "" then targetLang else c2.currentTarget) = ft →
      assocGet st.cache (getCacheKey prov.name text c2.currentSource ft)
        = none →
      prov.tr text "auto" ft = r1 →
      r1.error = none →
      V2.updateFromApiResult
        (TranslationManagerV2.detectedOf r1 c2.currentSource) now c2
        = (true, c3) →
      assocGet st.cache (getCacheKey prov.name text
        (TranslationManagerV2.detectedOf r1 c2.currentSource)
        c3.currentTarget) = none →
      (prov.tr text "auto" c3.currentTarget).error = some err →
      (TranslationManagerV2.translate mockProv st text "auto" targetLang
          now).response
        = { translatedText := "", error := some err.message
            provider := prov.name, errorType := some err.type } ∧
      (TranslationManagerV2.translate mockProv st text "auto" targetLang
          now).state = { st with context := some c3 } ∧
      (TranslationManagerV2.translate mockProv st text "auto" targetLang
          now).providerCalls = 2) := by
  refine ⟨?_, ?_, ?_⟩
  · intro mockProv francAll st st1 prov text sourceLang targetLang fs ft
      isExternal now err htext hprov hres hmiss herr
    have hframe := resolve_frame francAll st text sourceLang targetLang
      isExternal now
    rw [hres] at hframe
    have hfc : st1.cache = st.cache := by simpa using hframe.1
    have hfh : st1.history = st.history := by simpa using hframe.2
    unfold TranslationManagerV1.translate
    rw [if_neg htext, hprov]
    simp only [hres, hfc, hmiss, herr]
    refine ⟨?_, ?_, ?_, ?_, ?_⟩ <;> trivial
  · intro mockProv prov st ctx c2 text sourceLang targetLang rs ft now err
      htext hprov hctx hc2 hrs hft hmiss herr
    unfold TranslationManagerV2.translate
    rw [if_neg htext, hprov]
    simp only [hctx, hc2, hrs, hft, hmiss, herr]
    refine ⟨?_, ?_, ?_⟩ <;> first
      | trivial
      | rw [hprov]
  · intro mockProv prov st ctx c2 c3 text targetLang ft now r1 err htext
      hprov hctx hck hft hmiss1 hr1 hok1 hinv hmiss2 herr2
    unfold TranslationManagerV2.translate
    rw [if_neg htext, hprov]
    simp only [hctx, hck, ne_eq, String.reduceEq, not_false_eq_true,
      not_true_eq_false, false_and, and_false, if_false, ite_false,
      ite_true, if_true, or_true, true_or, reduceIte, hft, hmiss1, hr1,
      hok1, hinv, hmiss2, herr2]
    refine ⟨?_, ?_, ?_⟩ <;> first
      | trivial
      | rw [hprov]

/-- Witness for the amended C8: the failing `yandex` provider exercised
on all three error paths — the generation-1 call, a generation-2 call
with an explicit manual pair (context mutated before the failure), and a
generation-2 inversion whose re-issued second call fails. -/
theorem claim_C8_witness :
    (TranslationManagerV1.translate mockProvSample francNone errStateV1
        "hello" "de" "ru" true 1).response
      = { translatedText := "", error := some "boom"
          provider := "yandex", errorType := some "NETWORK_ERROR" } ∧
    (TranslationManagerV1.translate mockProvSample francNone errStateV1
        "hello" "de" "ru" true 1).state = errStateV1 ∧
    (TranslationManagerV2.translate mockProvSample errStateV2 "hello"
        "de" "fr" 1).response
      = { translatedText := "", error := some "boom"
          provider := "yandex", errorType := some "NETWORK_ERROR" } ∧
    (TranslationManagerV2.translate mockProvSample errStateV2 "hello"
        "de" "fr" 1).state
      = { errStateV2 with
          context := some (V2.setManualPair "de" "fr" 1
            (V2.checkTimeout 1 (V2.mk "ru" "en" 60 0))) } ∧
    (TranslationManagerV2.translate mockProvSample flipStateV2 "hello"
        "auto" "" 1).response
      = { translatedText := "", error := some "boom2"
          provider := "yandex", errorType := some "NETWORK_ERROR" } ∧
    (TranslationManagerV2.translate mockProvSample flipStateV2 "hello"
        "auto" "" 1).providerCalls = 2 :=
  ⟨(claim_C8_amended.1 mockProvSample francNone errStateV1 errStateV1
      errProv "hello" "de" "ru" "de" "ru" true 1
      { type := "NETWORK_ERROR", message := "boom" } (by decide) rfl rfl
      rfl rfl).1,
   (claim_C8_amended.1 mockProvSample francNone errStateV1 errStateV1
      errProv "hello" "de" "ru" "de" "ru" true 1
      { type := "NETWORK_ERROR", message := "boom" } (by decide) rfl rfl
      rfl rfl).2.1,
   (claim_C8_amended.2.1 mockProvSample errProv errStateV2
      (V2.mk "ru" "en" 60 0)
      (V2.setManualPair "de" "fr" 1
        (V2.checkTimeout 1 (V2.mk "ru" "en" 60 0)))
      "hello" "de" "fr" "de" "fr" 1
      { type := "NETWORK_ERROR", message := "boom" } (by decide) rfl rfl
      rfl rfl rfl rfl rfl).1,
   (claim_C8_amended.2.1 mockProvSample errProv errStateV2
      (V2.mk "ru" "en" 60 0)
      (V2.setManualPair "de" "fr" 1
        (V2.checkTimeout 1 (V2.mk "ru" "en" 60 0)))
      "hello" "de" "fr" "de" "fr" 1
      { type := "NETWORK_ERROR", message := "boom" } (by decide) rfl rfl
      rfl rfl rfl rfl rfl).2.1,
   (claim_C8_amended.2.2 mockProvSample flipErrProv flipStateV2
      (V2.mk "ru" "en" 60 0) (V2.mk "ru" "en" 60 0)
      { primary := "ru", defaultForeign := "en", timeoutMs := 3600000
        currentSource := "en", currentTarget := "ru", lastForeign := "en"
        lastActivity := 1 }
      "hello" "" "en" 1
      { text := "T", sourceLang := "en", detectedLanguage := "en" }
      { type := "NETWORK_ERROR", message := "boom2" } (by decide) rfl rfl
      (by decide) rfl rfl rfl rfl (by decide) rfl rfl).1,
   (claim_C8_amended.2.2 mockProvSample flipErrProv flipStateV2
      (V2.mk "ru" "en" 60 0) (V2.mk "ru" "en" 60 0)
      { primary := "ru", defaultForeign := "en", timeoutMs := 3600000
        currentSource := "en", currentTarget := "ru", lastForeign := "en"
        lastActivity := 1 }
      "hello" "" "en" 1
      { text := "T", sourceLang := "en", detectedLanguage := "en" }
      { type := "NETWORK_ERROR", message := "boom2" } (by decide) rfl rfl
      (by decide) rfl rfl rfl rfl (by decide) rfl rfl).2.2⟩
